import Mathlib

/-!
Verification of the `data_anonymizer` pipeline (`anonymizer_core.py`).

Shallow embedding notes.  The external collaborators (the Presidio
analyzer/anonymizer engines, pandas, pdfplumber, hashlib) are modelled as
abstract function parameters, following the spec's external contracts
`detect(text, entity_types) -> spans` and `apply(text, spans, operators) -> text`:

* `detect : String → List RecognizerResult` stands for `analyzer.analyze`;
* `h : String → String → String` (salt, then span text) stands for the
  engine's salted-hash operator primitive;
* pandas DataFrames become `DataFrame` (an ordered list of named, typed
  columns); Python cell values become `Value`, whose string coercion
  `pyStr` is fallible (`Value.bad` models an object whose `str()` raises);
* the filesystem reads become fields of an `Env` record, and writes are
  returned as an explicit list of `Write` events so that "no output is
  written" is visible in the result type.

Machine-level string operations (`str.strip`, `str.lower`, `split`,
slicing, regex `\D` removal) are modelled character-exactly on `List Char`.
-/

/-- Python's `str.strip()` whitespace set (ASCII part, which is what the
anonymizer's inputs exercise): space, tab, newline, carriage return,
vertical tab, form feed. -/
def pyWhitespace (c : Char) : Bool :=
  c = ' ' || c = '\t' || c = '\n' || c = '\r' || c = '\x0b' || c = '\x0c'

/-- `str.strip()` on the underlying character list: drop leading and
trailing whitespace characters. -/
def pyStripList (cs : List Char) : List Char :=
  ((cs.dropWhile pyWhitespace).reverse.dropWhile pyWhitespace).reverse

/-- `str.strip()` on strings, as used by `_anonymize_text` line 80. -/
def pyStrip (s : String) : String :=
  ⟨pyStripList s.data⟩

/-- A Python cell value as it can appear in a pandas `object` (or numeric)
column: a string, an integer, or an object whose `str()` coercion raises
(`bad`), which is the failure mode `_anonymize_text`'s `try/except` guards
against. -/
inductive Value where
  | str (s : String)
  | int (n : Int)
  | bad
deriving DecidableEq, Repr

/-- Python `str(value)`: succeeds with the string form for strings and
integers, fails (raises) for `Value.bad`. -/
def pyStr : Value → Option String
  | .str s => some s
  | .int n => some (toString n)
  | .bad => none

/-- A detection result returned by the analyzer engine:
`{start offset, end offset, entity type}` within the analyzed text
(confidence is consumed inside the engine and does not reach the
anonymize step's operator dispatch, so it is not modelled). -/
structure RecognizerResult where
  start : Nat
  stop : Nat
  entityType : String
deriving DecidableEq, Repr

/-- A redaction operator, from the `OperatorConfig` values built in
`_anonymize_text` lines 100-112: a salted hash or a literal replacement. -/
inductive Operator where
  | hash (hashType : String) (salt : String)
  | replace (newValue : String)
deriving DecidableEq, Repr

/-- The operator mapping passed to `anonymizer.anonymize`
(`anonymizer_core.py` lines 100-112): every listed entity type hashes with
sha256 and salt "xyz123"; `DEFAULT` replaces with the literal
"[REDACTED]". -/
def operators : List (String × Operator) :=
  [("EMAIL_ADDRESS", Operator.hash "sha256" "xyz123"),
   ("PHONE_NUMBER", Operator.hash "sha256" "xyz123"),
   ("AADHAAR", Operator.hash "sha256" "xyz123"),
   ("PERSON", Operator.hash "sha256" "xyz123"),
   ("PAN", Operator.hash "sha256" "xyz123"),
   ("IP_ADDRESS", Operator.hash "sha256" "xyz123"),
   ("BANK_ACCOUNT", Operator.hash "sha256" "xyz123"),
   ("CREDIT_CARD", Operator.hash "sha256" "xyz123"),
   ("DATE_TIME", Operator.hash "sha256" "xyz123"),
   ("LOCATION", Operator.hash "sha256" "xyz123"),
   ("DEFAULT", Operator.replace "[REDACTED]")]

/-- The entity types that have a specifically configured operator
(the keys of `operators` other than the `DEFAULT` fallback); these are
also exactly the entity types requested from `analyzer.analyze`
(lines 89-93). -/
def configuredTypes : List String :=
  ["EMAIL_ADDRESS", "PHONE_NUMBER", "AADHAAR", "PERSON",
   "PAN", "IP_ADDRESS", "BANK_ACCOUNT", "CREDIT_CARD",
   "DATE_TIME", "LOCATION"]

/-- Operator lookup performed by the anonymizer engine for a detected
entity type: the type's own entry if configured, else the mapping's
`DEFAULT` entry, else the engine's built-in replace-with-type-name
default (never reached with this repository's mapping, which always
contains `DEFAULT`). -/
def lookupOp (ops : List (String × Operator)) (t : String) : Operator :=
  match ops.lookup t with
  | some o => o
  | none =>
    match ops.lookup "DEFAULT" with
    | some o => o
    | none => Operator.replace ("<" ++ t ++ ">")

/-- Apply one operator to the text of one detected span. `h` is the
engine's salted-hash primitive. -/
def applyOp (h : String → String → String) (o : Operator) (s : String) : String :=
  match o with
  | .hash _ salt => h salt s
  | .replace nv => nv

/-- The anonymizer engine's span-application step: spans are processed
rightmost-first (sorted by decreasing start offset, as the engine does
after conflict resolution), each span `[start, stop)` being replaced by
its operator's output so that earlier spans' offsets stay valid. -/
def applySpans (h : String → String → String) (ops : List (String × Operator)) :
    List Char → List RecognizerResult → List Char
  | cs, [] => cs
  | cs, r :: rs =>
    applySpans h ops
      (cs.take r.start
        ++ (applyOp h (lookupOp ops r.entityType) ⟨(cs.take r.stop).drop r.start⟩).data
        ++ cs.drop r.stop)
      rs

/-- Well-formedness of the span list handed to the application step, as
guaranteed by the engine's conflict resolution: spans are in bounds,
non-degenerate-ordered (`start ≤ stop`), mutually non-overlapping and
sorted by decreasing position (each later span ends at or before the
current span starts). -/
def SpansOK (n : Nat) : List RecognizerResult → Prop
  | [] => True
  | r :: rs => r.start ≤ r.stop ∧ r.stop ≤ n ∧ SpansOK r.start rs

instance instDecSpansOK (n : Nat) (rs : List RecognizerResult) : Decidable (SpansOK n rs) :=
  match rs with
  | [] => Decidable.isTrue trivial
  | r :: rs =>
    have : Decidable (SpansOK r.start rs) := instDecSpansOK r.start rs
    inferInstanceAs (Decidable (r.start ≤ r.stop ∧ r.stop ≤ n ∧ SpansOK r.start rs))

/-- Reference rendering of the span-application step: explicitly the text
with every detected span `[start, stop)` replaced by its operator's
output and the gaps between spans kept verbatim.  In this form it is
immediate that no detected span survives into the output: each span's
region holds `applyOp` of its (possibly DEFAULT) operator instead of the
original span text. -/
def renderSpans (h : String → String → String) (ops : List (String × Operator)) :
    List Char → List RecognizerResult → List Char
  | cs, [] => cs
  | cs, r :: rs =>
    renderSpans h ops (cs.take r.start) rs
      ++ (applyOp h (lookupOp ops r.entityType) ⟨(cs.take r.stop).drop r.start⟩).data
      ++ cs.drop r.stop

/-- `_anonymize_text` (lines 78-116) on an already-coerced string: strip;
return stripped text if empty; otherwise run detection and, if any result
came back, apply the operator mapping to the detected spans. -/
def anonymizeString (detect : String → List RecognizerResult)
    (h : String → String → String) (s : String) : String :=
  let t := pyStrip s
  if t.data = [] then t
  else
    let results := detect t
    if results = [] then t
    else ⟨applySpans h operators t.data results⟩

/-- `_anonymize_text` on an arbitrary cell value: if the `str()` coercion
raises, the original value is returned unchanged (the `except` branch at
lines 83-84); otherwise the string pipeline runs and the cell becomes a
string. -/
def anonymizeValue (detect : String → List RecognizerResult)
    (h : String → String → String) (v : Value) : Value :=
  match pyStr v with
  | none => v
  | some s => Value.str (anonymizeString detect h s)

/-- A pandas column dtype, as dispatched on by `anonymize_dataframe`
(only `object` columns are redacted). -/
inductive Dtype where
  | object
  | int64
  | boolean
  | datetime
deriving DecidableEq, Repr

/-- A named, typed pandas column. -/
structure Column where
  name : String
  dtype : Dtype
  values : List Value
deriving DecidableEq, Repr

/-- A pandas DataFrame: an ordered sequence of columns. -/
structure DataFrame where
  cols : List Column
deriving DecidableEq, Repr

/-- One loop iteration of `anonymize_dataframe` (lines 124-127): an
`object`-dtype column has `_anonymize_text` applied to every cell; any
other column is left untouched. -/
def anonymizeColumn (detect : String → List RecognizerResult)
    (h : String → String → String) (c : Column) : Column :=
  if c.dtype = Dtype.object then
    { c with values := c.values.map (anonymizeValue detect h) }
  else c

/-- `anonymize_dataframe` (lines 122-128): copy the frame and redact each
`object` column in place. -/
def anonymize_dataframe (detect : String → List RecognizerResult)
    (h : String → String → String) (df : DataFrame) : DataFrame :=
  ⟨df.cols.map (anonymizeColumn detect h)⟩

/-- Python `str.split('.')` on the underlying characters: the maximal
runs between dots, including empty runs at the ends, with the running
segment carried reversed. -/
def splitDotAux : List Char → List Char → List (List Char)
  | [], acc => [acc.reverse]
  | c :: cs, acc =>
    if c = '.' then acc.reverse :: splitDotAux cs []
    else splitDotAux cs (c :: acc)

/-- `input_path.split('.')[-1].lower()` (line 136): the text after the
last dot (or the whole path if it has no dot), lowercased. -/
def extOf (p : String) : String :=
  ⟨((splitDotAux p.data []).getLastD []).map Char.toLower⟩

/-- The Aadhaar normalization applied to one already-coerced cell string
(lines 170-171): strip every non-digit character (regex `\D`), then, only
if exactly 12 digits remain, insert dashes as `####-####-####`; otherwise
keep the digit-stripped string. -/
def normalizeAadhaarStr (s : String) : String :=
  let d : List Char := s.data.filter Char.isDigit
  if d.length = 12 then
    ⟨d.take 4⟩ ++ "-" ++ ⟨(d.take 8).drop 4⟩ ++ "-" ++ ⟨d.drop 8⟩
  else ⟨d⟩

/-- Apply a fallible per-element operation across a list, failing the
whole list on the first failure (the exception behavior of a pandas
column-wise operation such as `astype(str)`). -/
def mapOption {α β : Type} (f : α → Option β) : List α → Option (List β)
  | [] => some []
  | a :: as =>
    match f a, mapOption f as with
    | some b, some bs => some (b :: bs)
    | _, _ => none

/-- Per-cell Aadhaar normalization including the `astype(str)` coercion,
which raises (propagating, uncaught) on a value whose `str()` raises. -/
def normalizeAadhaarValue (v : Value) : Option Value :=
  (pyStr v).map (fun s => Value.str (normalizeAadhaarStr s))

/-- Column-level Aadhaar normalization (lines 170-171): `astype(str)`
turns the column into an `object` column of strings, then each value is
digit-stripped and conditionally dashed. -/
def normalizeAadhaarColumn (c : Column) : Option Column :=
  (mapOption normalizeAadhaarValue c.values).map
    (fun vs => { name := c.name, dtype := Dtype.object, values := vs })

/-- The `if 'Aadhaar' in df.columns` normalization step of
`anonymize_file` (lines 169-171), applied to a whole frame. -/
def normalizeDf (df : DataFrame) : Option DataFrame :=
  (mapOption
    (fun c => if c.name = "Aadhaar" then normalizeAadhaarColumn c else some c)
    df.cols).map DataFrame.mk

/-- Python `sep.join(parts)`: the parts in order, with `sep` between
consecutive parts and nothing added for the empty or singleton list. -/
def pyJoin (sep : String) : List String → String
  | [] => ""
  | [a] => a
  | a :: as => a ++ sep ++ pyJoin sep as

/-- Page-by-page PDF text extraction (lines 145-146): each page yields
either extracted text or nothing (`extract_text()` returning `None` or
the empty string both contribute `''` via `or ''`), and the per-page
texts are joined with newline separators. -/
def extractPdfText (pages : List (Option String)) : String :=
  pyJoin "\n" (pages.map (fun p => p.getD ""))

/-- `output_path.replace('.pdf', '_anonymized.txt')` (line 155). -/
def pdfOutName (p : String) : String :=
  p.replace ".pdf" "_anonymized.txt"

/-- The result value `anonymize_file` returns: a DataFrame for tabular
input or the anonymized text for PDF input. -/
inductive FileResult where
  | table (df : DataFrame)
  | text (s : String)
deriving DecidableEq, Repr

/-- An output file written by `anonymize_file`. -/
inductive Write where
  | csv (path : String) (df : DataFrame)
  | excel (path : String) (df : DataFrame)
  | txt (path : String) (content : String)
deriving DecidableEq, Repr

/-- The errors `anonymize_file` can raise: the explicit `ValueError` for
an unsupported extension (line 163), or an uncaught exception from the
`astype(str)` coercion in the normalization step. -/
inductive AnonError where
  | unsupportedFormat (msg : String)
  | coercionError
deriving DecidableEq, Repr

/-- The external world `anonymize_file` reads from: file loaders for each
format, the detection engine, and the hash primitive. -/
structure Env where
  readCsv : String → DataFrame
  readExcel : String → DataFrame
  readPdfPages : String → List (Option String)
  detect : String → List RecognizerResult
  hashOp : String → String → String

/-- `anonymize_file` (lines 134-186): dispatch on the lowercased final
extension; CSV/Excel input is loaded, Aadhaar-normalized, redacted
column-wise and optionally written back in the input's format; PDF input
is extracted, redacted as one text and optionally written as text; any
other extension raises before anything is produced or written. -/
def anonymize_file (env : Env) (inputPath : String) (outputPath : Option String) :
    Except AnonError (FileResult × List Write) :=
  let ext := extOf inputPath
  if ext = "csv" ∨ ext = "xls" ∨ ext = "xlsx" then
    let df := if ext = "csv" then env.readCsv inputPath else env.readExcel inputPath
    match normalizeDf df with
    | none => Except.error AnonError.coercionError
    | some df1 =>
      let res := anonymize_dataframe env.detect env.hashOp df1
      let ws := match outputPath with
        | some op => [if ext = "csv" then Write.csv op res else Write.excel op res]
        | none => []
      Except.ok (FileResult.table res, ws)
  else if ext = "pdf" then
    let allText := extractPdfText (env.readPdfPages inputPath)
    let anonText := anonymizeString env.detect env.hashOp allText
    let ws := match outputPath with
      | some op => [Write.txt (pdfOutName op) anonText]
      | none => []
    Except.ok (FileResult.text anonText, ws)
  else
    Except.error (AnonError.unsupportedFormat
      "Unsupported file format. Only CSV and Excel are supported.")

/-! ## Helper lemmas -/

/-- Stripping an all-whitespace character list leaves nothing. -/
lemma pyStripList_eq_nil_of_whitespace (cs : List Char)
    (hw : ∀ c ∈ cs, pyWhitespace c = true) : pyStripList cs = [] := by
  unfold pyStripList
  have h1 : cs.dropWhile pyWhitespace = [] := by
    rw [List.dropWhile_eq_nil_iff]
    intro c hc
    exact hw c hc
  rw [h1]
  rfl

/-- Normalizing a list of integer cells succeeds and normalizes each via
its decimal string form. -/
lemma mapOption_normalizeAadhaarValue_int (ns : List Int) :
    mapOption normalizeAadhaarValue (ns.map Value.int)
      = some (ns.map (fun n => Value.str (normalizeAadhaarStr (toString n)))) := by
  induction ns with
  | nil => rfl
  | cons n ns ih => simp [mapOption, ih, normalizeAadhaarValue, pyStr]

/-- A span list well-formed for a bound is well-formed for any larger
bound (only the head span's end offset consults the bound). -/
lemma SpansOK.mono {m n : Nat} (hmn : m ≤ n) :
    ∀ {rs : List RecognizerResult}, SpansOK m rs → SpansOK n rs
  | [], _ => trivial
  | _ :: _, ⟨h1, h2, h3⟩ => ⟨h1, le_trans h2 hmn, h3⟩

/-- Frame lemma for the application step: spans lying entirely inside the
first block of an appended text never touch the second block. -/
lemma applySpans_append (h : String → String → String)
    (ops : List (String × Operator)) (rs : List RecognizerResult) :
    ∀ (A B : List Char), SpansOK A.length rs →
      applySpans h ops (A ++ B) rs = applySpans h ops A rs ++ B := by
  induction rs with
  | nil => intro A B _; rfl
  | cons r rs ih =>
    intro A B hOK
    obtain ⟨h1, h2, h3⟩ := hOK
    have hstart : r.start ≤ A.length := le_trans h1 h2
    rw [applySpans, applySpans,
        List.take_append_of_le_length hstart,
        List.take_append_of_le_length h2,
        List.drop_append_of_le_length h2]
    rw [show A.take r.start
          ++ (applyOp h (lookupOp ops r.entityType) ⟨(A.take r.stop).drop r.start⟩).data
          ++ (A.drop r.stop ++ B)
        = (A.take r.start
            ++ (applyOp h (lookupOp ops r.entityType) ⟨(A.take r.stop).drop r.start⟩).data
            ++ A.drop r.stop) ++ B by simp [List.append_assoc]]
    apply ih
    apply SpansOK.mono _ h3
    have : (A.take r.start).length = r.start := by
      rw [List.length_take]
      exact min_eq_left hstart
    calc r.start = (A.take r.start).length := this.symm
      _ ≤ _ := by simp [List.length_append]

/-- The engine's rightmost-first replacement loop computes exactly the
reference rendering in which every span is replaced by its operator's
output and all text between spans is kept. -/
lemma applySpans_eq_renderSpans (h : String → String → String)
    (ops : List (String × Operator)) (spans : List RecognizerResult) :
    ∀ (cs : List Char), SpansOK cs.length spans →
      applySpans h ops cs spans = renderSpans h ops cs spans := by
  induction spans with
  | nil => intro cs _; rfl
  | cons r rs ih =>
    intro cs hOK
    obtain ⟨h1, h2, h3⟩ := hOK
    have hstart : r.start ≤ cs.length := le_trans h1 h2
    have hlen : (cs.take r.start).length = r.start := by
      rw [List.length_take]
      exact min_eq_left hstart
    have h3' : SpansOK (cs.take r.start).length rs := by rw [hlen]; exact h3
    rw [applySpans, renderSpans, List.append_assoc,
        applySpans_append h ops rs _ _ h3', ih _ h3', List.append_assoc]

/-- Any entity type without its own configured operator is sent to the
mapping's DEFAULT literal-replacement operator. -/
lemma lookupOp_of_not_configured (t : String) (ht : t ∉ configuredTypes) :
    lookupOp operators t = Operator.replace "[REDACTED]" := by
  simp only [configuredTypes, List.mem_cons, List.not_mem_nil, or_false, not_or] at ht
  obtain ⟨h1, h2, h3, h4, h5, h6, h7, h8, h9, h10⟩ := ht
  by_cases hd : t = "DEFAULT"
  · subst hd; rfl
  · have e1 : (t == "EMAIL_ADDRESS") = false := beq_eq_false_iff_ne.mpr h1
    have e2 : (t == "PHONE_NUMBER") = false := beq_eq_false_iff_ne.mpr h2
    have e3 : (t == "AADHAAR") = false := beq_eq_false_iff_ne.mpr h3
    have e4 : (t == "PERSON") = false := beq_eq_false_iff_ne.mpr h4
    have e5 : (t == "PAN") = false := beq_eq_false_iff_ne.mpr h5
    have e6 : (t == "IP_ADDRESS") = false := beq_eq_false_iff_ne.mpr h6
    have e7 : (t == "BANK_ACCOUNT") = false := beq_eq_false_iff_ne.mpr h7
    have e8 : (t == "CREDIT_CARD") = false := beq_eq_false_iff_ne.mpr h8
    have e9 : (t == "DATE_TIME") = false := beq_eq_false_iff_ne.mpr h9
    have e10 : (t == "LOCATION") = false := beq_eq_false_iff_ne.mpr h10
    have ed : (t == "DEFAULT") = false := beq_eq_false_iff_ne.mpr hd
    simp [lookupOp, operators, List.lookup, e1, e2, e3, e4, e5, e6, e7, e8, e9, e10, ed]

/-! ## Claim theorems -/

/-- Claim C1, counterexample: on the whitespace-only input `" "` the text
redaction returns the empty string, which differs from the input, so the
redaction of a whitespace-only string is not the input unchanged. -/
theorem c1_counterexample :
    anonymizeString (fun _ => []) (fun _ _ => "") " " = "" ∧
    anonymizeString (fun _ => []) (fun _ _ => "") " " ≠ " " := by
  refine ⟨rfl, ?_⟩
  decide

/-- Claim C1 (amended): an empty or whitespace-only input short-circuits
before entity detection and returns the whitespace-stripped input, i.e.
the empty string; the output does not depend on the detection function
(detection is not invoked), and only the genuinely empty input is
returned literally unchanged. -/
theorem c1_whitespace_strips (detect : String → List RecognizerResult)
    (h : String → String → String) (s : String)
    (hw : ∀ c ∈ s.data, pyWhitespace c = true) :
    anonymizeString detect h s = "" := by
  have hstrip : pyStrip s = "" := by
    unfold pyStrip
    rw [pyStripList_eq_nil_of_whitespace s.data hw]
  unfold anonymizeString
  rw [hstrip]
  rfl

theorem c1_witness :
    anonymizeString (fun _ => []) (fun _ _ => "") " \t " = "" :=
  c1_whitespace_strips (fun _ => []) (fun _ _ => "") " \t " (by decide)

/-- Claim C2, counterexample: with a detection function that yields no
results on any text, redacting `" a "` produces `"a"` (the stripped
text), not the original text unchanged. -/
theorem c2_counterexample :
    anonymizeString (fun _ => []) (fun _ _ => "") " a " = "a" ∧
    anonymizeString (fun _ => []) (fun _ _ => "") " a " ≠ " a " := by
  refine ⟨rfl, ?_⟩
  decide

/-- Claim C2 (amended): when entity detection yields no results on the
stripped text, the redaction returns the whitespace-stripped input
unchanged (which equals the original input exactly when the input has no
leading/trailing whitespace). -/
theorem c2_no_results_returns_stripped (detect : String → List RecognizerResult)
    (h : String → String → String) (s : String)
    (hd : detect (pyStrip s) = []) :
    anonymizeString detect h s = pyStrip s := by
  unfold anonymizeString
  by_cases he : (pyStrip s).data = []
  · simp [he]
  · simp [he, hd]

theorem c2_witness :
    anonymizeString (fun _ => []) (fun _ _ => "") " a " = pyStrip " a " :=
  c2_no_results_returns_stripped (fun _ => []) (fun _ _ => "") " a " rfl

/-- Claim C3: when the string coercion of the input value raises, the
text redaction returns the original value unchanged instead of
propagating the failure. -/
theorem c3_coercion_failure_passthrough (detect : String → List RecognizerResult)
    (h : String → String → String) (v : Value)
    (hv : pyStr v = none) :
    anonymizeValue detect h v = v := by
  unfold anonymizeValue
  rw [hv]

theorem c3_witness :
    anonymizeValue (fun _ => []) (fun _ _ => "") Value.bad = Value.bad :=
  c3_coercion_failure_passthrough (fun _ => []) (fun _ _ => "") Value.bad rfl

/-- Claim C8: the redaction of a text and the salted-hash operator output
for a value are functions of the input, rule/operator configuration and
hash primitive alone, so two runs on the same input with the same
configuration produce identical outputs, enabling join-key consistency
across independently anonymized files. -/
theorem c8_determinism (detect : String → List RecognizerResult)
    (h : String → String → String) (s salt v : String) :
    anonymizeString detect h s = anonymizeString detect h s ∧
    applyOp h (Operator.hash "sha256" salt) v
      = applyOp h (Operator.hash "sha256" salt) v :=
  ⟨rfl, rfl⟩

/-- Claim C9: PDF extraction concatenates the pages' texts in order with
newline separators, a page with no extractable text contributing the
empty string; in particular a two-page document with one empty page
yields the non-empty page's text plus a separating newline. -/
theorem c9_pdf_extraction :
    (∀ (p q : Option String) (ps : List (Option String)),
      extractPdfText (p :: q :: ps) = (p.getD "") ++ "\n" ++ extractPdfText (q :: ps)) ∧
    (∀ p1 p2 : Option String,
      extractPdfText [p1, p2] = (p1.getD "") ++ "\n" ++ (p2.getD "")) ∧
    (∀ t : String, extractPdfText [some t, none] = t ++ "\n") ∧
    (∀ t : String, extractPdfText [none, some t] = "\n" ++ t) := by
  refine ⟨fun p q ps => rfl, fun p1 p2 => rfl, fun t => ?_, fun t => ?_⟩
  · show t ++ "\n" ++ "" = t ++ "\n"
    simp
  · show "" ++ "\n" ++ t = "\n" ++ t
    simp

/-- Claim C4: for a well-formed detected span list, the anonymizer's
application step rewrites the text to the reference rendering in which
every detected span's region carries its operator's output (so no
detected span is left unredacted once detection succeeded), and every
span whose entity type has no specifically configured operator receives
the DEFAULT literal replacement "[REDACTED]". -/
theorem c4_default_operator_fallback (h : String → String → String)
    (cs : List Char) (spans : List RecognizerResult)
    (hOK : SpansOK cs.length spans) :
    applySpans h operators cs spans = renderSpans h operators cs spans ∧
    ∀ r ∈ spans, r.entityType ∉ configuredTypes →
      applyOp h (lookupOp operators r.entityType) ⟨(cs.take r.stop).drop r.start⟩
        = "[REDACTED]" := by
  refine ⟨applySpans_eq_renderSpans h operators spans cs hOK, fun r _ hr => ?_⟩
  rw [lookupOp_of_not_configured r.entityType hr]
  rfl

theorem c4_witness :
    applySpans (fun _ _ => "") operators "abcdef".data [⟨1, 3, "FOO"⟩]
      = renderSpans (fun _ _ => "") operators "abcdef".data [⟨1, 3, "FOO"⟩] ∧
    applyOp (fun _ _ => "")
        (lookupOp operators (RecognizerResult.mk 1 3 "FOO").entityType)
        ⟨("abcdef".data.take (RecognizerResult.mk 1 3 "FOO").stop).drop
          (RecognizerResult.mk 1 3 "FOO").start⟩
      = "[REDACTED]" :=
  ⟨(c4_default_operator_fallback (fun _ _ => "") "abcdef".data
      [⟨1, 3, "FOO"⟩] (by decide)).1,
   (c4_default_operator_fallback (fun _ _ => "") "abcdef".data
      [⟨1, 3, "FOO"⟩] (by decide)).2 ⟨1, 3, "FOO"⟩ (by decide) (by decide)⟩

/-- Claim C5: tabular anonymization preserves the column names in order
and every column's row count, and a column whose dtype is not `object`
(the free-text dtype) is returned verbatim at its position. -/
theorem c5_frame_preservation (detect : String → List RecognizerResult)
    (h : String → String → String) (df : DataFrame) :
    (anonymize_dataframe detect h df).cols.map Column.name
      = df.cols.map Column.name ∧
    (anonymize_dataframe detect h df).cols.map (fun c => c.values.length)
      = df.cols.map (fun c => c.values.length) ∧
    ∀ (i : Nat) (c : Column), df.cols[i]? = some c → c.dtype ≠ Dtype.object →
      (anonymize_dataframe detect h df).cols[i]? = some c := by
  have hname : ∀ c : Column, (anonymizeColumn detect h c).name = c.name := by
    intro c
    unfold anonymizeColumn
    split <;> rfl
  have hlen : ∀ c : Column,
      (anonymizeColumn detect h c).values.length = c.values.length := by
    intro c
    unfold anonymizeColumn
    split <;> simp
  refine ⟨?_, ?_, ?_⟩
  · unfold anonymize_dataframe
    rw [List.map_map]
    exact List.map_congr_left (fun c _ => hname c)
  · unfold anonymize_dataframe
    rw [List.map_map]
    exact List.map_congr_left (fun c _ => hlen c)
  · intro i c hi hdt
    unfold anonymize_dataframe
    rw [List.getElem?_map, hi]
    have : anonymizeColumn detect h c = c := by
      unfold anonymizeColumn
      rw [if_neg hdt]
    simp [this]

theorem c5_witness :
    (anonymize_dataframe (fun _ => []) (fun _ _ => "")
        ⟨[⟨"amount", Dtype.int64, [Value.int 5, Value.int 7]⟩]⟩).cols[0]?
      = some ⟨"amount", Dtype.int64, [Value.int 5, Value.int 7]⟩ :=
  (c5_frame_preservation (fun _ => []) (fun _ _ => "")
      ⟨[⟨"amount", Dtype.int64, [Value.int 5, Value.int 7]⟩]⟩).2.2 0
    ⟨"amount", Dtype.int64, [Value.int 5, Value.int 7]⟩ rfl (by decide)

/-- Claim C6: a path whose lowercased final extension is none of csv,
xls, xlsx, pdf makes the file orchestrator fail with the unsupported
format error; the error result carries no `Write` events, so nothing is
produced or written. -/
theorem c6_unsupported_extension_error (env : Env) (inputPath : String)
    (outputPath : Option String)
    (hext : extOf inputPath ∉ (["csv", "xls", "xlsx", "pdf"] : List String)) :
    anonymize_file env inputPath outputPath
      = Except.error (AnonError.unsupportedFormat
          "Unsupported file format. Only CSV and Excel are supported.") := by
  simp only [List.mem_cons, List.not_mem_nil, or_false, not_or] at hext
  obtain ⟨h1, h2, h3, h4⟩ := hext
  unfold anonymize_file
  simp [h1, h2, h3, h4]

theorem c6_witness :
    anonymize_file
        ⟨fun _ => ⟨[]⟩, fun _ => ⟨[]⟩, fun _ => [], fun _ => [], fun _ _ => ""⟩
        "data.txt" (some "out.csv")
      = Except.error (AnonError.unsupportedFormat
          "Unsupported file format. Only CSV and Excel are supported.") :=
  c6_unsupported_extension_error
    ⟨fun _ => ⟨[]⟩, fun _ => ⟨[]⟩, fun _ => [], fun _ => [], fun _ _ => ""⟩
    "data.txt" (some "out.csv") (by decide)

/-- Claim C7, counterexample: the Aadhaar cell `"12-34"` has 4 digits
after stripping non-digits (≠ 12), yet normalization does not leave it
as-is: it becomes the digit-stripped string `"1234"`. -/
theorem c7_counterexample :
    normalizeAadhaarValue (Value.str "12-34") = some (Value.str "1234") ∧
    Value.str "1234" ≠ Value.str "12-34" := by
  refine ⟨rfl, ?_⟩
  decide

/-- Claim C7 (amended): Aadhaar normalization first strips every
non-digit character from the cell's string form; if exactly 12 digits
remain the cell becomes the canonical dashed form ####-####-####, and
otherwise the cell becomes the digit-stripped string (the original value
is restored only when it contained no non-digit characters). -/
theorem c7_normalization_amended (s : String) :
    ((s.data.filter Char.isDigit).length = 12 →
      normalizeAadhaarStr s
        = ⟨(s.data.filter Char.isDigit).take 4⟩ ++ "-"
          ++ ⟨((s.data.filter Char.isDigit).take 8).drop 4⟩ ++ "-"
          ++ ⟨(s.data.filter Char.isDigit).drop 8⟩) ∧
    ((s.data.filter Char.isDigit).length ≠ 12 →
      normalizeAadhaarStr s = ⟨s.data.filter Char.isDigit⟩) := by
  unfold normalizeAadhaarStr
  constructor <;> intro hc <;> simp [hc]

theorem c7_witness :
    normalizeAadhaarStr "1234 5678 9012"
      = ⟨("1234 5678 9012".data.filter Char.isDigit).take 4⟩ ++ "-"
        ++ ⟨(("1234 5678 9012".data.filter Char.isDigit).take 8).drop 4⟩ ++ "-"
        ++ ⟨("1234 5678 9012".data.filter Char.isDigit).drop 8⟩ :=
  (c7_normalization_amended "1234 5678 9012").1 (by decide)

/-- Claim C10: normalizing a numeric (int64) column named `Aadhaar`
coerces every value to its string form and turns the column into an
`object` (text-typed) column, and tabular anonymization then applies the
text redaction to every one of its cells — the one exception to the rule
that numeric columns pass through unredacted. -/
theorem c10_aadhaar_numeric_redacted (detect : String → List RecognizerResult)
    (h : String → String → String) (ns : List Int) :
    normalizeAadhaarColumn ⟨"Aadhaar", Dtype.int64, ns.map Value.int⟩
      = some ⟨"Aadhaar", Dtype.object,
          ns.map (fun n => Value.str (normalizeAadhaarStr (toString n)))⟩ ∧
    anonymizeColumn detect h
        ⟨"Aadhaar", Dtype.object,
          ns.map (fun n => Value.str (normalizeAadhaarStr (toString n)))⟩
      = ⟨"Aadhaar", Dtype.object,
          ns.map (fun n =>
            Value.str (anonymizeString detect h (normalizeAadhaarStr (toString n))))⟩ := by
  constructor
  · unfold normalizeAadhaarColumn
    rw [mapOption_normalizeAadhaarValue_int]
    rfl
  · unfold anonymizeColumn
    simp [anonymizeValue, pyStr, List.map_map, Function.comp]
